import Mathlib

/-!
Verification of the chat request handlers of the sepanda repository.

The development shallowly embeds the chat route handlers (`POST`, `GET`,
`DELETE` of `src/app/(chat)/actions.ts`), the title generator
(`generateTitleFromUserMessage`), the `onFinish` persistence callback,
and the prompt construction of `src/lib/ai/prompts.ts` as executable Lean
functions over explicit request environments, and proves the behavioural
properties stated in the specification about them.
-/

namespace Sepanda

/-- Roles a chat message can have, mirroring the `role` column. -/
inductive Role where
  | user
  | assistant
  deriving DecidableEq, Repr

/-- Chat visibility: `priv` embeds the source value `'private'`, `pub`
embeds `'public'`. -/
inductive Visibility where
  | priv
  | pub
  deriving DecidableEq, Repr

/-- A persisted chat row: id, owning user, title and visibility. -/
structure Chat where
  id : String
  userId : String
  title : String
  visibility : Visibility
  deriving DecidableEq, Repr

/-- A persisted message row. `content` stands for the opaque parts and
attachments payload; `createdAt` is the creation time in whole seconds. -/
structure Message where
  id : String
  chatId : String
  role : Role
  content : String
  createdAt : Int
  deriving DecidableEq, Repr

/-- The typed `ChatSDKError` codes the handlers construct. -/
inductive ChatError where
  | badRequestApi
  | unauthorizedChat
  | forbiddenChat
  | rateLimitChat
  | notFoundChat
  | notFoundStream
  deriving DecidableEq, Repr

/-- An authenticated session: the caller's user id and account tier
(`session.user.type` in the source). -/
structure Session where
  userId : String
  userType : String
  deriving DecidableEq, Repr

/-- A thrown JS error as the POST catch-all distinguishes them: an
instance of `ChatSDKError`, or any other (generic) exception. -/
inductive JsError where
  | chatSDK (e : ChatError)
  | generic
  deriving DecidableEq, Repr

/-- date-fns `differenceInSeconds` of two instants given in whole
seconds: the signed difference, later minus earlier. -/
def differenceInSeconds (laterDate earlierDate : Int) : Int :=
  laterDate - earlierDate

/-- The JS value the awaited `generateText` call resolves with, as the
validation in `generateTitleFromUserMessage` distinguishes it: a string,
a nullish value (`undefined`/`null`), or any non-string value. -/
inductive JsValue where
  | str (s : String)
  | nullish
  | nonString
  deriving DecidableEq, Repr

/-- The fixed fallback title returned by `generateTitleFromUserMessage`
when the model call fails or yields an unusable value. -/
def fallbackTitle : String := "گفتگوی جدید"

/-- Embedding of `generateTitleFromUserMessage`. The argument is the
outcome of the awaited `generateText` call: `.error` when it throws,
`.ok v` when it resolves with `v`. The source checks
`!title || typeof title !== 'string' || title.trim() === ''` and falls
back, and its surrounding try/catch maps any thrown error to the same
fallback. -/
def generateTitleFromUserMessage (generated : Except Unit JsValue) : String :=
  match generated with
  | .error _ => fallbackTitle
  | .ok v =>
    match v with
    | .nullish => fallbackTitle
    | .nonString => fallbackTitle
    | .str title =>
      if title = "" ∨ title.trim = "" then fallbackTitle else title

/-- Embedding of `getStreamContext` (`src/app/(chat)/actions.ts`):
`createResumableStreamContext` throws when `REDIS_URL` is missing, the
catch swallows the error and the function returns null (`none`);
otherwise the registry handle (`some ()`) is returned. -/
def getStreamContext (redisUrlPresent : Bool) : Option Unit :=
  if redisUrlPresent then some () else none

/-- The `artifactsPrompt` constant of `src/lib/ai/prompts.ts`. -/
def artifactsPrompt : String :=
  "\nArtifacts is a special user interface mode that helps users with writing, editing, and other content creation tasks. When artifact is open, it is on the right side of the screen, while the conversation is on the left side. When creating or updating documents, changes are reflected in real-time on the artifacts and visible to the user.\n\nWhen asked to write code, always use artifacts. When writing code, specify the language in the backticks, e.g. ```python`code here```. The default language is Python. Other languages are not yet supported, so let the user know if they request a different language.\n\nDO NOT UPDATE DOCUMENTS IMMEDIATELY AFTER CREATING THEM. WAIT FOR USER FEEDBACK OR REQUEST TO UPDATE IT.\n\nThis is a guide for using artifacts tools: `createDocument` and `updateDocument`, which render content on a artifacts beside the conversation.\n\n**When to use `createDocument`:**\n- For substantial content (>10 lines) or code\n- For content users will likely save/reuse (emails, code, essays, etc.)\n- When explicitly requested to create a document\n- For when content contains a single code snippet\n\n**When NOT to use `createDocument`:**\n- For informational/explanatory content\n- For conversational responses\n- When asked to keep it in chat\n\n**Using `updateDocument`:**\n- Default to full document rewrites for major changes\n- Use targeted updates only for specific, isolated changes\n- Follow user instructions for which parts to modify\n\n**When NOT to use `updateDocument`:**\n- Immediately after creating a document\n\nDo not update document right after creating it. Wait for user feedback or request to update it.\n"

/-- The `regularPrompt` constant of `src/lib/ai/prompts.ts`. -/
def regularPrompt : String :=
  "You are a friendly assistant! Keep your responses concise and helpful. Important: When discussing health, diet, or medical topics, DO NOT include any disclaimers about consulting doctors or nutritionists. Specifically, never say \"لطفاً قبل از شروع هر رژیم غذایی جدید، با پزشک یا متخصص تغذیه مشورت کنید\" or any similar disclaimer in any language."

/-- The `healthPrompt` constant of `src/lib/ai/prompts.ts`. -/
def healthPrompt : String :=
  "You are a nutrition and health assistant. Provide helpful dietary information without any disclaimers or warnings about consulting healthcare professionals. Never include statements like \"لطفاً قبل از شروع هر رژیم غذایی جدید، با پزشک یا متخصص تغذیه مشورت کنید\" or any similar disclaimer in any language. When asked about diet or nutrition plans, follow this multi-step process:\n\n1. Ask the user questions one by one in separate messages, waiting for their response to each question before asking the next one. Essential questions include:\n   - What are your health or weight goals?\n   - Do you have any dietary restrictions or allergies?\n   - How many meals per day do you prefer?\n   - Do you have specific calorie targets?\n   - Any foods you particularly enjoy or dislike?\n\n2. Only after receiving answers to all questions, generate the complete diet plan.\n\n3. Present the final plan using a borderless table format with clean columnar layout, organizing content with clear columns for day number, breakfast, lunch, dinner, and snacks. Include specific meals for each day without overwhelming detail. Label each day numerically from Day 1 to Day 30."

/-- The geolocation hints of a request (`RequestHints` in
`src/lib/ai/prompts.ts`); each Geo field may be undefined (`none`). -/
structure RequestHints where
  latitude : Option String
  longitude : Option String
  city : Option String
  country : Option String
  deriving DecidableEq, Repr

/-- JS template interpolation of a possibly-undefined geo field: the
string itself, or the text `undefined`. -/
def geoText : Option String → String
  | none => "undefined"
  | some s => s

/-- The `getRequestPromptFromHints` template of `src/lib/ai/prompts.ts`
(its leading backslash-newline is a JS line continuation, so the string
starts directly with the first line). -/
def getRequestPromptFromHints (requestHints : RequestHints) : String :=
  "About the origin of user\x27s request:\n- lat: " ++ geoText requestHints.latitude ++
    "\n- lon: " ++ geoText requestHints.longitude ++
    "\n- city: " ++ geoText requestHints.city ++
    "\n- country: " ++ geoText requestHints.country ++ "\n"

/-- Embedding of `systemPrompt` (`src/lib/ai/prompts.ts`): the regular
and health prompts always, the request hints, and, unless the reasoning
model is selected, the artifacts instructions. -/
def systemPrompt (selectedChatModel : String) (requestHints : RequestHints) : String :=
  let requestPrompt := getRequestPromptFromHints requestHints
  let basePrompt := regularPrompt ++ "\n\n" ++ healthPrompt
  if selectedChatModel = "chat-model-reasoning" then
    basePrompt ++ "\n\n" ++ requestPrompt
  else
    basePrompt ++ "\n\n" ++ requestPrompt ++ "\n\n" ++ artifactsPrompt

/-- The `experimental_activeTools` argument the POST handler passes to
`streamText`: empty for the reasoning model, the four tools otherwise. -/
def experimentalActiveTools (selectedChatModel : String) : List String :=
  if selectedChatModel = "chat-model-reasoning" then []
  else ["getWeather", "createDocument", "updateDocument", "requestSuggestions"]

/-- The fields of a parsed and schema-validated POST /chat body. -/
structure PostRequestBody where
  id : String
  message : Message
  selectedChatModel : String
  selectedVisibilityType : Visibility
  deriving DecidableEq, Repr

/-- Everything the POST handler observes about one request: the parse
outcome of the body, the session, and the outcome of each awaited
database or model call, in the order the handler performs them. A
`some e` in a `…Throws` field means that call throws `e`;
`maxMessagesPerDay` is the per-tier entry
`entitlementsByUserType[t].maxMessagesPerDay`. -/
structure PostEnv where
  /-- `some body` when `request.json()` parses and matches the schema,
  `none` when either step throws. -/
  body : Option PostRequestBody
  session : Option Session
  /-- Per-tier daily maximum, `entitlementsByUserType[t].maxMessagesPerDay`. -/
  maxMessagesPerDay : String → Nat
  /-- Whether the user row already exists (the provisioning block). -/
  userRowExists : Bool
  /-- Whether the provisioning block throws; its local catch swallows it. -/
  userProvisionThrows : Bool
  /-- `getMessageCountByUserId` over the trailing 24 hours. -/
  messageCount : Nat
  /-- `getChatById` result. -/
  chat : Option Chat
  /-- `generateText` outcome inside `generateTitleFromUserMessage`. -/
  titleGeneration : Except Unit JsValue
  /-- `saveChat` outcome when a new chat is created. -/
  saveChatThrows : Option JsError
  /-- `saveMessages` outcome for the incoming user message. -/
  saveUserMessageThrows : Option JsError
  /-- `createStreamId` outcome. -/
  createStreamIdThrows : Option JsError
  /-- Geolocation hints derived from the request. -/
  requestHints : RequestHints
  /-- Whether `REDIS_URL` is configured (see `getStreamContext`). -/
  redisUrlPresent : Bool

/-- The externally observable persistence and model side effects of one
POST request. `savedChat` is the row passed to `saveChat` when a new
chat is created; `modelInvocation` is the `(activeTools, system)` pair
passed to `streamText` when the stream is started. -/
structure Effects where
  userRowCreated : Bool
  savedChat : Option Chat
  userMessageSaved : Bool
  streamIdCreated : Bool
  modelInvocation : Option (List String × String)
  deriving DecidableEq, Repr

/-- No side effect performed. -/
def Effects.none : Effects :=
  { userRowCreated := false, savedChat := Option.none, userMessageSaved := false,
    streamIdCreated := false, modelInvocation := Option.none }

/-- The response a POST request resolves with: a typed error response, the
generic 500 JSON, or a streamed response (resumable when the registry is
available). -/
inductive PostResponse where
  | errorResponse (e : ChatError)
  | internal500
  | streamResponse (resumable : Bool)
  deriving DecidableEq, Repr

/-- The tail of the POST try block after the chat exists and is owned by
the caller: save the user message, create a stream id, then start the
model stream and respond with it. -/
def POSTrest (env : PostEnv) (body : PostRequestBody) (eff : Effects) :
    Except JsError PostResponse × Effects :=
  match env.saveUserMessageThrows with
  | some e => (.error e, eff)
  | none =>
    let eff := { eff with userMessageSaved := true }
    match env.createStreamIdThrows with
    | some e => (.error e, eff)
    | none =>
      let eff := { eff with streamIdCreated := true,
                            modelInvocation := some
                              (experimentalActiveTools body.selectedChatModel,
                               systemPrompt body.selectedChatModel env.requestHints) }
      (.ok (.streamResponse (getStreamContext env.redisUrlPresent).isSome), eff)

/-- The body of the outer try block of POST (`src/app/(chat)/actions.ts`,
after the body parse): auth, user provisioning (errors swallowed), quota
check, chat creation or ownership check, then `POSTrest`. `.error e`
models an exception escaping the try block. -/
def POSTtry (env : PostEnv) (body : PostRequestBody) :
    Except JsError PostResponse × Effects :=
  match env.session with
  | none => (.ok (.errorResponse .unauthorizedChat), Effects.none)
  | some session =>
    let eff0 : Effects :=
      { Effects.none with
          userRowCreated := !env.userRowExists && !env.userProvisionThrows }
    if env.messageCount > env.maxMessagesPerDay session.userType then
      (.ok (.errorResponse .rateLimitChat), eff0)
    else
      match env.chat with
      | none =>
        match env.saveChatThrows with
        | some e => (.error e, eff0)
        | none =>
          let newChat : Chat :=
            { id := body.id, userId := session.userId,
              title := generateTitleFromUserMessage env.titleGeneration,
              visibility := body.selectedVisibilityType }
          POSTrest env body { eff0 with savedChat := some newChat }
      | some chat =>
        if chat.userId ≠ session.userId then
          (.ok (.errorResponse .forbiddenChat), eff0)
        else
          POSTrest env body eff0

/-- Embedding of the POST /chat handler: a parse failure yields
`bad_request:api`; otherwise the try block runs and its catch-all maps a
thrown `ChatSDKError` to its typed response and any other exception to
the generic 500 JSON response. -/
def POST (env : PostEnv) : PostResponse × Effects :=
  match env.body with
  | none => (.errorResponse .badRequestApi, Effects.none)
  | some body =>
    match POSTtry env body with
    | (.ok r, eff) => (r, eff)
    | (.error (.chatSDK e), eff) => (.errorResponse e, eff)
    | (.error .generic, eff) => (.internal500, eff)

/-- One event written to a restored data stream. The only synthetic event
the GET handler emits is `append-message` with the serialized message. -/
inductive StreamEvent where
  | appendMessage (m : Message)
  deriving DecidableEq, Repr

/-- The response of one GET /chat request: 204 with empty body, a typed
error response, a 200 data stream replaying exactly the listed events, a
200 re-attachment to the still-in-flight resumable stream, or an
exception escaping the handler (GET has no top-level try/catch). -/
inductive GetOutcome where
  | noContent
  | chatError (e : ChatError)
  | okStream (events : List StreamEvent)
  | liveStream
  | uncaughtException
  deriving DecidableEq, Repr

/-- Everything the GET handler observes about one request, in the order
the handler performs its calls. -/
structure GetEnv where
  /-- Whether `REDIS_URL` is configured (see `getStreamContext`). -/
  redisUrlPresent : Bool
  /-- The `chatId` query parameter. -/
  chatIdParam : Option String
  session : Option Session
  /-- Whether `getChatById` throws (its catch maps this to `not_found:chat`). -/
  getChatThrows : Bool
  /-- `getChatById` result. -/
  chat : Option Chat
  /-- Whether `getStreamIdsByChatId` throws (no surrounding try/catch). -/
  getStreamIdsThrows : Bool
  /-- `getStreamIdsByChatId` result. -/
  streamIds : List String
  /-- Whether `streamContext.resumableStream` returns a live stream, i.e.
  generation is still in flight; `false` means it has concluded (null). -/
  streamActive : Bool
  /-- `getMessagesByChatId` result, in creation-time order. -/
  messages : List Message
  /-- `new Date()` at handler entry, in whole seconds. -/
  resumeRequestedAt : Int
  deriving Repr

/-- Embedding of the GET /chat handler (`src/app/(chat)/actions.ts`):
204 without a registry; validation, auth, chat lookup and visibility
check; `not_found:stream` without stream ids; re-attachment to a live
stream; and, for a concluded stream, the replay decision over the most
recent message of the chat. -/
def GET (env : GetEnv) : GetOutcome :=
  match getStreamContext env.redisUrlPresent with
  | none => .noContent
  | some _ =>
    match env.chatIdParam with
    | none => .chatError .badRequestApi
    | some _ =>
      match env.session with
      | none => .chatError .unauthorizedChat
      | some session =>
        if env.getChatThrows then .chatError .notFoundChat
        else
          match env.chat with
          | none => .chatError .notFoundChat
          | some chat =>
            if chat.visibility = .priv ∧ chat.userId ≠ session.userId then
              .chatError .forbiddenChat
            else if env.getStreamIdsThrows then .uncaughtException
            else if env.streamIds.isEmpty then .chatError .notFoundStream
            else if env.streamActive then .liveStream
            else
              match env.messages.getLast? with
              | none => .okStream []
              | some mostRecentMessage =>
                if mostRecentMessage.role ≠ .assistant then .okStream []
                else if differenceInSeconds env.resumeRequestedAt
                    mostRecentMessage.createdAt > 15 then .okStream []
                else .okStream [.appendMessage mostRecentMessage]

/-- The response of one DELETE /chat request: a typed error response, a
200 JSON response with the deleted chat, or an exception escaping the
handler (DELETE has no top-level try/catch, and it reads `chat.userId`
without checking that `getChatById` found a row). -/
inductive DeleteOutcome where
  | chatError (e : ChatError)
  | deleted (chat : Chat)
  | uncaughtException
  deriving DecidableEq, Repr

/-- Everything the DELETE handler observes about one request. -/
structure DeleteEnv where
  /-- The `id` query parameter. -/
  idParam : Option String
  session : Option Session
  /-- `getChatById` result (`none` embeds undefined: no such chat). -/
  chat : Option Chat
  deriving DecidableEq, Repr

/-- Embedding of the DELETE /chat handler (`src/app/(chat)/actions.ts`).
When `getChatById` finds no row, the handler dereferences
`chat.userId` on undefined: a TypeError with no surrounding try/catch,
embedded as `uncaughtException`. -/
def DELETE (env : DeleteEnv) : DeleteOutcome :=
  match env.idParam with
  | none => .chatError .badRequestApi
  | some _ =>
    match env.session with
    | none => .chatError .unauthorizedChat
    | some session =>
      match env.chat with
      | none => .uncaughtException
      | some chat =>
        if chat.userId ≠ session.userId then .chatError .forbiddenChat
        else .deleted chat

/-- One message of the model response passed to the `onFinish` callback. -/
structure ResponseMessage where
  id : String
  role : Role
  deriving DecidableEq, Repr

/-- Modelled from the spec: `getTrailingMessageId` of `lib/utils` is not
under `src/`; per its name and its use on the assistant-filtered response
messages, it yields the id of the trailing (last) message, or null when
there is none. -/
def getTrailingMessageId (messages : List ResponseMessage) : Option String :=
  (messages.getLast?).map (fun m => m.id)

/-- Everything the `onFinish` callback of `streamText` observes. -/
structure OnFinishEnv where
  /-- `session.user?.id` at callback time. -/
  sessionUserId : Option String
  /-- `response.messages`. -/
  responseMessages : List ResponseMessage
  /-- Whether `saveMessages` for the assistant message throws. -/
  saveAssistantMessageThrows : Bool
  deriving DecidableEq, Repr

/-- The try block inside `onFinish`: filter the response messages to the
assistant ones, take the trailing id (throwing when there is none), then
save the assistant message. `.ok saved` reports whether the save
happened; `.error` models a thrown exception. -/
def onFinishTry (env : OnFinishEnv) : Except Unit Bool :=
  let assistantMessages :=
    env.responseMessages.filter (fun m => m.role == Role.assistant)
  match getTrailingMessageId assistantMessages with
  | none => .error ()
  | some _ =>
    if env.saveAssistantMessageThrows then .error ()
    else .ok true

/-- How the `onFinish` callback returns to its caller: normally (with a
flag telling whether the assistant message was persisted), or by
propagating an exception. -/
inductive OnFinishResult where
  | returned (savedAssistantMessage : Bool)
  | thrown
  deriving DecidableEq, Repr

/-- Embedding of the `onFinish` callback of the POST handler: an early
return without a session user id, and a catch that logs and deliberately
does not rethrow, so an error inside the try block yields a normal
return with nothing saved. -/
def onFinish (env : OnFinishEnv) : OnFinishResult :=
  match env.sessionUserId with
  | none => .returned false
  | some _ =>
    match onFinishTry env with
    | .error _ => .returned false
    | .ok saved => .returned saved

/-- Fixture: an authenticated session. -/
def sampleSession : Session := { userId := "user-1", userType := "regular" }

/-- Fixture: an incoming user message. -/
def sampleMessage : Message :=
  { id := "msg-1", chatId := "chat-1", role := .user, content := "hi",
    createdAt := 0 }

/-- Fixture: a valid POST body. -/
def sampleBody : PostRequestBody :=
  { id := "chat-1", message := sampleMessage,
    selectedChatModel := "chat-model", selectedVisibilityType := .priv }

/-- Fixture: request hints with every geo field undefined. -/
def emptyHints : RequestHints :=
  { latitude := Option.none, longitude := Option.none,
    city := Option.none, country := Option.none }

/-- Fixture: a chat owned by the sample session's user. -/
def ownedChat : Chat :=
  { id := "chat-1", userId := "user-1", title := "t", visibility := .priv }

/-- Fixture: a public chat owned by a different user. -/
def otherUserPublicChat : Chat :=
  { id := "chat-1", userId := "user-2", title := "t", visibility := .pub }

/-- Fixture: a POST environment on the happy path up to the point where
saving the user message throws a generic exception. -/
def postGenericFailureEnv : PostEnv :=
  { body := some sampleBody, session := some sampleSession,
    maxMessagesPerDay := fun _ => 100, userRowExists := true,
    userProvisionThrows := false, messageCount := 0, chat := some ownedChat,
    titleGeneration := .ok (.str "t"), saveChatThrows := Option.none,
    saveUserMessageThrows := some .generic, createStreamIdThrows := Option.none,
    requestHints := emptyHints, redisUrlPresent := false }

/-- Fixture: a GET environment reaching the stream-id lookup on a public
chat of another user, whose chat has no stream ids. -/
def publicOtherOwnerGetEnv : GetEnv :=
  { redisUrlPresent := true, chatIdParam := some "chat-1",
    session := some sampleSession, getChatThrows := false,
    chat := some otherUserPublicChat, getStreamIdsThrows := false,
    streamIds := [], streamActive := false, messages := [],
    resumeRequestedAt := 0 }

/-- Fixture: an assistant message created at time 0. -/
def assistantMessage : Message :=
  { id := "msg-2", chatId := "chat-1", role := .assistant, content := "hello",
    createdAt := 0 }

/-- Fixture: a GET environment whose resumable stream has concluded, with
a fresh assistant message as the most recent message of the chat. -/
def concludedGetEnv : GetEnv :=
  { redisUrlPresent := true, chatIdParam := some "chat-1",
    session := some sampleSession, getChatThrows := false,
    chat := some ownedChat, getStreamIdsThrows := false,
    streamIds := ["stream-1"], streamActive := false,
    messages := [assistantMessage], resumeRequestedAt := 10 }

/-- Fixture: a GET environment without a stream registry. -/
def noRegistryGetEnv : GetEnv :=
  { redisUrlPresent := false, chatIdParam := Option.none,
    session := Option.none, getChatThrows := false, chat := Option.none,
    getStreamIdsThrows := false, streamIds := [], streamActive := false,
    messages := [], resumeRequestedAt := 0 }

/-- Fixture: a POST environment of a caller who exceeded the daily quota. -/
def rateLimitedPostEnv : PostEnv :=
  { body := some sampleBody, session := some sampleSession,
    maxMessagesPerDay := fun _ => 5, userRowExists := true,
    userProvisionThrows := false, messageCount := 6, chat := Option.none,
    titleGeneration := .ok (.str "t"), saveChatThrows := Option.none,
    saveUserMessageThrows := Option.none, createStreamIdThrows := Option.none,
    requestHints := emptyHints, redisUrlPresent := false }

/-- Fixture: a POST environment on the happy path with no registry. -/
def happyPostEnv : PostEnv :=
  { body := some sampleBody, session := some sampleSession,
    maxMessagesPerDay := fun _ => 100, userRowExists := true,
    userProvisionThrows := false, messageCount := 0, chat := some ownedChat,
    titleGeneration := .ok (.str "t"), saveChatThrows := Option.none,
    saveUserMessageThrows := Option.none, createStreamIdThrows := Option.none,
    requestHints := emptyHints, redisUrlPresent := false }

/-- Fixture: a POST environment with a valid body but no session. -/
def unauthenticatedPostEnv : PostEnv :=
  { body := some sampleBody, session := Option.none,
    maxMessagesPerDay := fun _ => 100, userRowExists := true,
    userProvisionThrows := false, messageCount := 0, chat := Option.none,
    titleGeneration := .ok (.str "t"), saveChatThrows := Option.none,
    saveUserMessageThrows := Option.none, createStreamIdThrows := Option.none,
    requestHints := emptyHints, redisUrlPresent := false }

/-- Helper: trimming a single space yields the empty string (evaluated by
hand because `Substring.takeWhileAux` is defined by well-founded
recursion and does not reduce in the kernel). -/
theorem space_trim : (" ").trim = "" := by
  have h2 : Substring.takeWhileAux " " ⟨1⟩ Char.isWhitespace ⟨1⟩ = ⟨1⟩ := by
    rw [Substring.takeWhileAux.eq_def]
    norm_num
  have h1 : Substring.takeWhileAux " " ⟨1⟩ Char.isWhitespace ⟨0⟩ = ⟨1⟩ := by
    rw [Substring.takeWhileAux.eq_def]
    norm_num [show (" ".get 0) = ' ' from rfl, show (" ".next 0) = ⟨1⟩ from rfl,
      show (' '.isWhitespace) = true from rfl, h2]
  have h3 : Substring.takeRightWhileAux " " ⟨1⟩ Char.isWhitespace ⟨1⟩ = ⟨1⟩ := by
    rw [Substring.takeRightWhileAux.eq_def]
    norm_num
  show ((" ").toSubstring.trim).toString = ""
  have h4 : (" ").toSubstring = ⟨" ", ⟨0⟩, ⟨1⟩⟩ := rfl
  rw [h4, Substring.trim]
  simp only [h1, h3]
  rfl

/-- C9: `generateTitleFromUserMessage` is total and always returns a
non-empty string; a thrown model call, a nullish or non-string value,
and a whitespace-only string all yield the fixed fallback title instead
of an error or an empty title. -/
theorem generate_title_total_nonempty :
    (∀ generated, generateTitleFromUserMessage generated ≠ "") ∧
    generateTitleFromUserMessage (.error ()) = fallbackTitle ∧
    generateTitleFromUserMessage (.ok .nullish) = fallbackTitle ∧
    generateTitleFromUserMessage (.ok .nonString) = fallbackTitle ∧
    (∀ s : String, s.trim = "" →
      generateTitleFromUserMessage (.ok (.str s)) = fallbackTitle) := by
  refine ⟨?_, rfl, rfl, rfl, ?_⟩
  · intro generated
    cases generated with
    | error u => cases u; decide
    | ok v =>
      cases v with
      | nullish => decide
      | nonString => decide
      | str s =>
        show (if s = "" ∨ s.trim = "" then fallbackTitle else s) ≠ ""
        split
        · decide
        · rename_i hcond
          intro hs
          exact hcond (Or.inl hs)
  · intro s hs
    show (if s = "" ∨ s.trim = "" then fallbackTitle else s) = fallbackTitle
    rw [if_pos (Or.inr hs)]

/-- Witness for C9: a whitespace-only title falls back. -/
theorem generate_title_total_nonempty_witness :
    generateTitleFromUserMessage (.ok (.str " ")) = fallbackTitle :=
  generate_title_total_nonempty.2.2.2.2 " " space_trim

/-- C10: for the reasoning model the active-tools list is empty and the
system prompt is the regular and health prompts plus the request hints
only; for every other model all four tools are active and the artifacts
instructions are appended; in both cases the prompt starts with the
regular prompt followed by the health prompt. -/
theorem system_prompt_tools_by_model :
    (∀ requestHints, systemPrompt "chat-model-reasoning" requestHints =
        regularPrompt ++ "\n\n" ++ healthPrompt ++ "\n\n" ++
          getRequestPromptFromHints requestHints ∧
      experimentalActiveTools "chat-model-reasoning" = []) ∧
    (∀ selectedChatModel requestHints,
      selectedChatModel ≠ "chat-model-reasoning" →
      systemPrompt selectedChatModel requestHints =
        regularPrompt ++ "\n\n" ++ healthPrompt ++ "\n\n" ++
          getRequestPromptFromHints requestHints ++ "\n\n" ++ artifactsPrompt ∧
      experimentalActiveTools selectedChatModel =
        ["getWeather", "createDocument", "updateDocument", "requestSuggestions"]) ∧
    (∀ selectedChatModel requestHints, ∃ rest,
      systemPrompt selectedChatModel requestHints =
        regularPrompt ++ "\n\n" ++ healthPrompt ++ rest) := by
  refine ⟨fun hints => ⟨?_, ?_⟩, fun m hints hm => ⟨?_, ?_⟩, fun m hints => ?_⟩
  · rfl
  · rfl
  · simp only [systemPrompt]
    rw [if_neg hm]
  · simp only [experimentalActiveTools]
    rw [if_neg hm]
  · by_cases hm : m = "chat-model-reasoning"
    · refine ⟨"\n\n" ++ getRequestPromptFromHints hints, ?_⟩
      subst hm
      simp only [systemPrompt]
      simp [String.append_assoc]
    · refine ⟨"\n\n" ++ (getRequestPromptFromHints hints ++
        ("\n\n" ++ artifactsPrompt)), ?_⟩
      simp only [systemPrompt]
      rw [if_neg hm]
      simp [String.append_assoc]

/-- Witness for C10: a non-reasoning model activates all four tools. -/
theorem system_prompt_tools_by_model_witness :
    experimentalActiveTools "chat-model" =
      ["getWeather", "createDocument", "updateDocument", "requestSuggestions"] :=
  (system_prompt_tools_by_model.2.1 "chat-model"
    { latitude := Option.none, longitude := Option.none,
      city := Option.none, country := Option.none }
    (by decide)).2

/-- C6: the `onFinish` callback never propagates an exception, and when
saving the finalized assistant message fails the failure is swallowed
(the callback returns normally with nothing persisted), so the
already-started stream is not aborted by the persistence failure. -/
theorem onfinish_save_failure_swallowed :
    (∀ env, onFinish env ≠ .thrown) ∧
    (∀ env, env.saveAssistantMessageThrows = true →
      onFinish env = .returned false) := by
  constructor
  · intro env
    unfold onFinish
    cases hs : env.sessionUserId with
    | none => simp
    | some u =>
      cases ht : onFinishTry env <;> simp
  · intro env h
    unfold onFinish
    cases hs : env.sessionUserId with
    | none => rfl
    | some u =>
      have ht : onFinishTry env = .error () := by
        cases hg : getTrailingMessageId (env.responseMessages.filter
            (fun m => m.role == Role.assistant)) with
        | none => simp [onFinishTry, hg]
        | some i => simp [onFinishTry, hg, h]
      rw [ht]

/-- Witness for C6: a failing assistant-message save still returns
normally with nothing saved. -/
theorem onfinish_save_failure_swallowed_witness :
    onFinish { sessionUserId := some "user-1",
               responseMessages := [{ id := "msg-1", role := Role.assistant }],
               saveAssistantMessageThrows := true } = .returned false :=
  onfinish_save_failure_swallowed.2 _ rfl

/-- Counterexample for C5: a DELETE request with a valid id parameter and
an authenticated session, targeting a chat id that matches no row, makes
the handler read `chat.userId` on undefined; the TypeError escapes the
handler because DELETE has no top-level try/catch, contradicting the
claim that no request lets an exception escape. -/
theorem delete_missing_chat_escapes :
    DELETE { idParam := some "chat-1",
             session := some { userId := "user-1", userType := "regular" },
             chat := Option.none } = .uncaughtException := rfl

/-- C5 amended: the POST handler catches every exception escaping its try
block, converting a thrown ChatSDKError to its typed response and any
other exception to the generic 500 JSON response; GET and DELETE have no
top-level catch, so exceptions there (a throwing stream-id lookup in
GET, a missing chat row in DELETE) escape the handler. -/
theorem post_catchall_amended :
    (∀ env body eff, env.body = some body →
        POSTtry env body = (.error .generic, eff) →
        POST env = (.internal500, eff)) ∧
    (∀ env body e eff, env.body = some body →
        POSTtry env body = (.error (.chatSDK e), eff) →
        POST env = (.errorResponse e, eff)) ∧
    (∀ env i s, env.idParam = some i → env.session = some s →
        env.chat = Option.none → DELETE env = .uncaughtException) ∧
    (∀ env cid s c, env.redisUrlPresent = true → env.chatIdParam = some cid →
        env.session = some s → env.getChatThrows = false → env.chat = some c →
        ¬(c.visibility = .priv ∧ c.userId ≠ s.userId) →
        env.getStreamIdsThrows = true → GET env = .uncaughtException) := by
  refine ⟨?_, ?_, ?_, ?_⟩
  · intro env body eff hb ht
    simp [POST, hb, ht]
  · intro env body e eff hb ht
    simp [POST, hb, ht]
  · intro env i s hi hs hc
    simp [DELETE, hi, hs, hc]
  · intro env cid s c hr hcid hs hthrow hchat hacc hids
    simp [GET, getStreamContext, hr, hcid, hs, hthrow, hchat, hacc, hids]

/-- Witness for C5 amended: a generic exception thrown while saving the
user message becomes the generic 500 response. -/
theorem post_catchall_amended_witness :
    POST postGenericFailureEnv = (.internal500, Effects.none) :=
  post_catchall_amended.1 postGenericFailureEnv sampleBody Effects.none rfl rfl

/-- Counterexample for C3: a GET request by an authenticated caller for
an existing public chat owned by a different user is not answered with a
forbidden error; the handler proceeds (here to `not_found:stream`). -/
theorem get_public_other_owner_not_forbidden :
    publicOtherOwnerGetEnv.chat = some otherUserPublicChat ∧
    publicOtherOwnerGetEnv.session = some sampleSession ∧
    otherUserPublicChat.userId ≠ sampleSession.userId ∧
    GET publicOtherOwnerGetEnv = .chatError .notFoundStream ∧
    GET publicOtherOwnerGetEnv ≠ .chatError .forbiddenChat := by
  exact ⟨rfl, rfl, by decide, by decide, by decide⟩

/-- C3 amended: POST and DELETE return a forbidden error for every
existing chat owned by a different user; GET returns forbidden exactly
when such a chat is private, and serves a public chat owned by another
user without a forbidden error. -/
theorem ownership_forbidden_amended :
    (∀ env body s c, env.body = some body → env.session = some s →
        ¬ env.messageCount > env.maxMessagesPerDay s.userType →
        env.chat = some c → c.userId ≠ s.userId →
        (POST env).1 = .errorResponse .forbiddenChat) ∧
    (∀ env i s c, env.idParam = some i → env.session = some s →
        env.chat = some c → c.userId ≠ s.userId →
        DELETE env = .chatError .forbiddenChat) ∧
    (∀ env cid s c, env.redisUrlPresent = true → env.chatIdParam = some cid →
        env.session = some s → env.getChatThrows = false → env.chat = some c →
        c.userId ≠ s.userId →
        (c.visibility = .priv → GET env = .chatError .forbiddenChat) ∧
        (c.visibility = .pub → GET env ≠ .chatError .forbiddenChat)) := by
  refine ⟨?_, ?_, ?_⟩
  · intro env body s c hb hs hq hchat hne
    simp [POST, POSTtry, hb, hs, hq, hchat, hne]
  · intro env i s c hi hs hchat hne
    simp [DELETE, hi, hs, hchat, hne]
  · intro env cid s c hr hcid hs hthrow hchat hne
    constructor
    · intro hpriv
      have hacc : c.visibility = .priv ∧ c.userId ≠ s.userId := ⟨hpriv, hne⟩
      simp [GET, getStreamContext, hr, hcid, hs, hthrow, hchat, hacc]
    · intro hpub
      have hacc : ¬(c.visibility = .priv ∧ c.userId ≠ s.userId) := by
        rw [hpub]
        rintro ⟨h, -⟩
        cases h
      simp only [GET, getStreamContext, hr, hcid, hs, hthrow, hchat,
        if_true, if_neg hacc]
      split
      · decide
      split
      · decide
      split
      · decide
      split
      · decide
      split
      · simp
      split
      · simp
      split <;> simp

/-- Witness for C3 amended: deleting another user's chat is forbidden. -/
theorem ownership_forbidden_amended_witness :
    DELETE { idParam := some "chat-1", session := some sampleSession,
             chat := some otherUserPublicChat } = .chatError .forbiddenChat :=
  ownership_forbidden_amended.2.1 _ "chat-1" sampleSession otherUserPublicChat
    rfl rfl rfl (by decide)

/-- C1: for a GET request whose resumable stream has concluded, the
handler replays the most recent message of the chat exactly once, as a
single synthetic append-message event, when that message is an assistant
message created at most 15 seconds before the resume request; it replays
nothing (an empty 200 data stream) when the chat has no messages, the
last message is not from the assistant, or it is older than 15 seconds. -/
theorem get_concluded_stream_replay (env : GetEnv) (cid : String)
    (s : Session) (c : Chat)
    (hr : env.redisUrlPresent = true)
    (hcid : env.chatIdParam = some cid)
    (hs : env.session = some s)
    (hthrow : env.getChatThrows = false)
    (hchat : env.chat = some c)
    (hacc : ¬(c.visibility = .priv ∧ c.userId ≠ s.userId))
    (hsthrow : env.getStreamIdsThrows = false)
    (hstreams : env.streamIds ≠ [])
    (hconcluded : env.streamActive = false) :
    (∀ m, env.messages.getLast? = some m → m.role = .assistant →
        differenceInSeconds env.resumeRequestedAt m.createdAt ≤ 15 →
        GET env = .okStream [.appendMessage m]) ∧
    (env.messages = [] → GET env = .okStream []) ∧
    (∀ m, env.messages.getLast? = some m → m.role ≠ .assistant →
        GET env = .okStream []) ∧
    (∀ m, env.messages.getLast? = some m →
        differenceInSeconds env.resumeRequestedAt m.createdAt > 15 →
        GET env = .okStream []) := by
  have hne : env.streamIds.isEmpty = false := by
    cases h : env.streamIds with
    | nil => exact absurd h hstreams
    | cons a l => rfl
  have hbase : GET env = (match env.messages.getLast? with
      | none => .okStream []
      | some m =>
        if m.role ≠ .assistant then .okStream []
        else if differenceInSeconds env.resumeRequestedAt m.createdAt > 15
          then .okStream []
        else .okStream [.appendMessage m]) := by
    simp only [GET, getStreamContext, hr, hcid, hs, hthrow, hchat,
      if_neg hacc, hsthrow, hne, hconcluded, if_true, Bool.false_eq_true,
      if_false]
  refine ⟨?_, ?_, ?_, ?_⟩
  · intro m hm hrole htime
    rw [hbase, hm]
    simp [hrole, not_lt.mpr htime]
  · intro hmsgs
    rw [hbase, hmsgs]
    rfl
  · intro m hm hrole
    rw [hbase, hm]
    simp [hrole]
  · intro m hm htime
    rw [hbase, hm]
    by_cases hrole : m.role = .assistant
    · simp [hrole, htime]
    · simp [hrole]

/-- Witness for C1: a fresh assistant message is replayed once. -/
theorem get_concluded_stream_replay_witness :
    GET concludedGetEnv = .okStream [.appendMessage assistantMessage] :=
  (get_concluded_stream_replay concludedGetEnv "chat-1" sampleSession
      ownedChat rfl rfl rfl rfl rfl (by decide) rfl (by decide) rfl).1
    assistantMessage rfl rfl (by decide)

/-- C2: a POST request of an authenticated user whose message count over
the preceding 24 hours exceeds the per-tier daily maximum is answered
with the rate-limit error, and no chat is created, no message saved and
the model not invoked. -/
theorem post_rate_limit_rejects (env : PostEnv) (body : PostRequestBody)
    (s : Session) (hb : env.body = some body) (hs : env.session = some s)
    (hq : env.messageCount > env.maxMessagesPerDay s.userType) :
    (POST env).1 = .errorResponse .rateLimitChat ∧
    (POST env).2.savedChat = Option.none ∧
    (POST env).2.userMessageSaved = false ∧
    (POST env).2.modelInvocation = Option.none := by
  have h : POST env = (.errorResponse .rateLimitChat,
      { Effects.none with
          userRowCreated := !env.userRowExists && !env.userProvisionThrows }) := by
    simp [POST, POSTtry, hb, hs, hq]
  rw [h]
  exact ⟨rfl, rfl, rfl, rfl⟩

/-- Witness for C2: six messages against a maximum of five are rejected. -/
theorem post_rate_limit_rejects_witness :
    (POST rateLimitedPostEnv).1 = .errorResponse .rateLimitChat ∧
    (POST rateLimitedPostEnv).2.savedChat = Option.none ∧
    (POST rateLimitedPostEnv).2.userMessageSaved = false ∧
    (POST rateLimitedPostEnv).2.modelInvocation = Option.none :=
  post_rate_limit_rejects rateLimitedPostEnv sampleBody sampleSession
    rfl rfl (by decide)

/-- C4: a GET request without a stream registry is answered 204 with an
empty body; with a registry, a chat-id that matches no row (or a
throwing lookup) yields `not_found:chat`, and an existing accessible
chat with no associated stream ids yields `not_found:stream`. -/
theorem get_error_responses :
    (∀ env : GetEnv, env.redisUrlPresent = false → GET env = .noContent) ∧
    (∀ env cid s, env.redisUrlPresent = true → env.chatIdParam = some cid →
        env.session = some s →
        env.getChatThrows = true ∨ env.chat = Option.none →
        GET env = .chatError .notFoundChat) ∧
    (∀ env cid s c, env.redisUrlPresent = true → env.chatIdParam = some cid →
        env.session = some s → env.getChatThrows = false → env.chat = some c →
        ¬(c.visibility = .priv ∧ c.userId ≠ s.userId) →
        env.getStreamIdsThrows = false → env.streamIds = [] →
        GET env = .chatError .notFoundStream) := by
  refine ⟨?_, ?_, ?_⟩
  · intro env hr
    simp [GET, getStreamContext, hr]
  · intro env cid s hr hcid hs hor
    rcases hor with hthrow | hchat
    · simp [GET, getStreamContext, hr, hcid, hs, hthrow]
    · by_cases ht : env.getChatThrows = true
      · simp [GET, getStreamContext, hr, hcid, hs, ht]
      · rw [Bool.not_eq_true] at ht
        simp [GET, getStreamContext, hr, hcid, hs, ht, hchat]
  · intro env cid s c hr hcid hs hthrow hchat hacc hsthrow hids
    simp [GET, getStreamContext, hr, hcid, hs, hthrow, hchat, if_neg hacc,
      hsthrow, hids]

/-- Witness for C4: no registry yields the 204 no-content response. -/
theorem get_error_responses_witness :
    GET noRegistryGetEnv = .noContent :=
  get_error_responses.1 noRegistryGetEnv rfl

/-- C7: a POST request that reaches streaming still returns the model
output stream when the resumable-stream registry cannot be initialized
(plain, non-resumable), and returns it as a resumable stream when the
registry is available. -/
theorem post_resumable_fallback (env : PostEnv) (body : PostRequestBody)
    (s : Session) (c : Chat)
    (hb : env.body = some body) (hs : env.session = some s)
    (hq : ¬ env.messageCount > env.maxMessagesPerDay s.userType)
    (hchat : env.chat = some c) (howner : c.userId = s.userId)
    (hsave : env.saveUserMessageThrows = Option.none)
    (hstream : env.createStreamIdThrows = Option.none) :
    (env.redisUrlPresent = false → (POST env).1 = .streamResponse false) ∧
    (env.redisUrlPresent = true → (POST env).1 = .streamResponse true) := by
  have h : (POST env).1 = .streamResponse env.redisUrlPresent := by
    cases hru : env.redisUrlPresent <;>
      simp [POST, POSTtry, POSTrest, hb, hs, hq, hchat, howner, hsave,
        hstream, getStreamContext, hru]
  constructor <;> intro hr <;> rw [h, hr]

/-- Witness for C7: without a registry the stream is returned plain. -/
theorem post_resumable_fallback_witness :
    (POST happyPostEnv).1 = .streamResponse false :=
  (post_resumable_fallback happyPostEnv sampleBody sampleSession ownedChat
    rfl rfl (by decide) rfl rfl rfl rfl).1 rfl

/-- C8: a POST body that fails to parse or validate is answered with
`bad_request:api` with no side effect and independently of the session;
a valid body without an authenticated session is answered with
`unauthorized:chat` with no side effect and independently of the message
count. -/
theorem post_validation_before_state :
    (∀ env : PostEnv, env.body = Option.none →
        POST env = (.errorResponse .badRequestApi, Effects.none)) ∧
    (∀ (env : PostEnv) (s : Option Session), env.body = Option.none →
        POST env = POST { env with session := s }) ∧
    (∀ env body, env.body = some body → env.session = Option.none →
        POST env = (.errorResponse .unauthorizedChat, Effects.none)) ∧
    (∀ (env : PostEnv) body (n : Nat), env.body = some body →
        env.session = Option.none →
        POST env = POST { env with messageCount := n }) := by
  refine ⟨?_, ?_, ?_, ?_⟩
  · intro env hb
    simp [POST, hb]
  · intro env s hb
    simp [POST, hb]
  · intro env body hb hs
    simp [POST, POSTtry, hb, hs]
  · intro env body n hb hs
    simp [POST, POSTtry, hb, hs]

/-- Witness for C8: a valid body without a session is unauthorized. -/
theorem post_validation_before_state_witness :
    POST unauthenticatedPostEnv =
      (.errorResponse .unauthorizedChat, Effects.none) :=
  post_validation_before_state.2.2.1 unauthenticatedPostEnv sampleBody rfl rfl

end Sepanda
